import Mathlib

/- Verification of the authentication and session-lifecycle subsystem of the
aws-pos-pipeline repository.

Server side (backend auth middleware): `authenticate` embeds the Express
middleware that parses the `Authorization` header, decodes the JWT, resolves
the signing key from the JWKS client, and verifies the token with
`jwt.verify(token, key, { algorithms: ['RS256'] })`; `requireRole` and
`requireAnyRole` embed the role-check middlewares reading `custom:role`.

Client side (frontend/src/services/api.js): `responseInterceptor` embeds the
axios response interceptor that, on a 401 with the request's `_retry` flag
unset, reads the `tokens` entry of localStorage, posts to `/auth/refresh`,
rewrites the stored tokens on success and retries the original request once,
and on refresh failure removes the stored tokens, redirects to `/login`, and
rejects with the refresh error. -/

/-- Recursor for `splitChar`: splits the character list at every occurrence of
`c`, like JavaScript `String.prototype.split` on a single-character
separator (adjacent separators yield empty strings). -/
def splitCharGo (c : Char) : List Char → List Char → List String
  | [], acc => [String.mk acc.reverse]
  | x :: xs, acc =>
    if x = c then String.mk acc.reverse :: splitCharGo c xs []
    else splitCharGo c xs (x :: acc)

/-- JavaScript `s.split(c)` for a one-character separator `c`:
`"a b".split(' ') = ["a","b"]`, `"".split(' ') = [""]`. -/
def splitChar (c : Char) (s : String) : List String :=
  splitCharGo c s.toList []

/-- Result of `jwt.decode(token, { complete: true })`: the decoded header
(`kid`, `alg`) together with the payload claims and the `exp` claim. -/
structure DecodedToken where
  kid : String
  alg : String
  payload : List (String × String)
  exp : Option Int
deriving DecidableEq

/-- Environment of the middleware: `decode` is `jwt.decode` (returning `none`
for a malformed token), `keys` is the JWKS client's `getSigningKey` (returning
`none` when the lookup errors), `sigValid` tells whether the token's signature
verifies under a given key material, and `now` is the verification clock
(seconds). -/
structure JwtEnv where
  decode : String → Option DecodedToken
  keys : String → Option String
  sigValid : String → String → Bool
  now : Int

/-- Errors thrown by `jwt.verify`: `invalidAlgorithm` and `invalidSignature`
are `JsonWebTokenError`s, `tokenExpired` is a `TokenExpiredError`. -/
inductive JwtError where
  | invalidAlgorithm
  | invalidSignature
  | tokenExpired
deriving DecidableEq

/-- `jsonwebtoken` expiry check: the token is expired when the clock is at or
past the `exp` claim; a token with no `exp` claim never expires. -/
def isExpired (now : Int) (exp : Option Int) : Bool :=
  match exp with
  | none => false
  | some e => decide (e ≤ now)

/-- `jwt.verify(token, key, { algorithms: ['RS256'] })`: checks the declared
algorithm against the allow-list, then the signature, then expiry. No
`issuer` or `audience` option is passed, so those claims are not checked. -/
def jwtVerify (env : JwtEnv) (token : String) (d : DecodedToken) (key : String) :
    Except JwtError (List (String × String)) :=
  if d.alg ≠ "RS256" then .error .invalidAlgorithm
  else if env.sigValid token key = false then .error .invalidSignature
  else if isExpired env.now d.exp = true then .error .tokenExpired
  else .ok d.payload

/-- Outcome of the `authenticate` middleware: an error response with a status
and message, or `next()` with `req.user` set to the verified payload. -/
inductive AuthResult where
  | reject (status : Nat) (message : String)
  | accept (user : List (String × String))
deriving DecidableEq

/-- Whether the middleware accepted the request. -/
def AuthResult.isAccept : AuthResult → Bool
  | .accept _ => true
  | .reject _ _ => false

/-- Body of the `try` block of `authenticate` from the extracted bearer token
onward, paired with the number of `getSigningKey` calls made. Mirrors the
source order: `jwt.decode` first, then `getSigningKey(decodedToken.header.kid)`,
then `jwt.verify`; the `catch` maps `TokenExpiredError` to "Token expired",
`JsonWebTokenError` to "Invalid token", and anything else (e.g. a JWKS lookup
error) to "Authentication failed". -/
def authenticateToken (env : JwtEnv) (token : String) : AuthResult × Nat :=
  match env.decode token with
  | none => (.reject 401 "Invalid token", 0)
  | some d =>
    match env.keys d.kid with
    | none => (.reject 401 "Authentication failed", 1)
    | some key =>
      match jwtVerify env token d key with
      | .error .tokenExpired => (.reject 401 "Token expired", 1)
      | .error _ => (.reject 401 "Invalid token", 1)
      | .ok payload => (.accept payload, 1)

/-- The `authenticate` middleware, instrumented with the count of
`getSigningKey` (key-resolution) calls. Header handling mirrors the source:
missing header, then `authHeader.split(' ')` with the
`parts.length !== 2 || parts[0] !== 'Bearer'` format check. -/
def authenticate (env : JwtEnv) (authHeader : Option String) : AuthResult × Nat :=
  match authHeader with
  | none => (.reject 401 "No authorization header provided", 0)
  | some header =>
    let parts := splitChar ' ' header
    if parts.length ≠ 2 ∨ parts.head? ≠ some "Bearer" then
      (.reject 401 "Authorization header format must be \"Bearer token\"", 0)
    else
      authenticateToken env (parts.getD 1 "")

/-- `req.user[key]` on the claim map: the first binding of `key`, if any. -/
def lookupClaim (claims : List (String × String)) (key : String) : Option String :=
  match claims.find? (fun p => p.1 == key) with
  | none => none
  | some p => some p.2

/-- Outcome of a role-check middleware: an error response, or `next()`. -/
inductive GateResult where
  | reject (status : Nat) (message : String)
  | next
deriving DecidableEq

/-- The `requireRole(requiredRole)` middleware. `user = none` models a request
on which `authenticate` has not set `req.user`. The JS guard is
`!userRole || userRole !== requiredRole`; `!userRole` is true when the
`custom:role` claim is absent (`undefined`) or is the empty string. -/
def requireRole (requiredRole : String) (user : Option (List (String × String))) :
    GateResult :=
  match user with
  | none => .reject 401 "Authentication required"
  | some u =>
    match lookupClaim u "custom:role" with
    | none => .reject 403 "Insufficient permissions"
    | some userRole =>
      if userRole = "" ∨ userRole ≠ requiredRole then
        .reject 403 "Insufficient permissions"
      else .next

/-- The `requireAnyRole(roles)` middleware. The JS guard is
`!userRole || !roles.includes(userRole)`. -/
def requireAnyRole (roles : List String) (user : Option (List (String × String))) :
    GateResult :=
  match user with
  | none => .reject 401 "Authentication required"
  | some u =>
    match lookupClaim u "custom:role" with
    | none => .reject 403 "Insufficient permissions"
    | some userRole =>
      if userRole = "" ∨ roles.contains userRole = false then
        .reject 403 "Insufficient permissions"
      else .next

/-- The object persisted in localStorage under the key `tokens`. -/
structure StoredTokens where
  accessToken : String
  idToken : String
  refreshToken : String
  expiresIn : Int
deriving DecidableEq

/-- Body of the backend's `POST /auth/refresh` success response
(`idToken`, `accessToken`, `expiresIn`; no rotated refresh token). -/
structure RefreshResponse where
  accessToken : String
  idToken : String
  expiresIn : Int
deriving DecidableEq

/-- Client-side state touched by the response interceptor: the localStorage
`tokens` entry, the number of `/auth/refresh` network calls issued so far, and
whether `window.location` was set to `/login`. -/
structure ClientState where
  storage : Option StoredTokens
  refreshCalls : Nat
  redirectedToLogin : Bool
deriving DecidableEq

/-- The axios request config of the original request: its `_retry` flag
(absent means `false`) and its `Authorization` header. -/
structure RequestConfig where
  retryFlag : Bool
  authHeader : Option String
deriving DecidableEq

/-- Behaviour of the refresh endpoint as seen by the client: the response for
a given refresh token, or `none` when the network call fails (rejects). -/
structure RefreshEnv where
  refresh : String → Option RefreshResponse

/-- What the error handler of the response interceptor does with the promise:
reject with the original error, reject with the refresh error, or re-issue the
original request with an updated config. -/
inductive InterceptorOutcome where
  | rejectOriginal
  | rejectRefreshError
  | retryRequest (cfg : RequestConfig)
deriving DecidableEq

/-- The error handler of `api.interceptors.response`. On a 401 whose request
has `_retry` unset it sets `_retry`, reads the stored tokens, and if present
posts the stored refresh token to `/auth/refresh`; on success it writes
`{ ...tokens, accessToken, idToken, expiresIn }` back to storage and retries
the original request with the new access token; on refresh failure it removes
the stored tokens, redirects to `/login`, and rejects with the refresh error.
Every other path rejects with the original error. -/
def responseInterceptor (env : RefreshEnv) (st : ClientState) (status : Nat)
    (cfg : RequestConfig) : ClientState × InterceptorOutcome :=
  if status = 401 ∧ cfg.retryFlag = false then
    match st.storage with
    | some tokens =>
      match env.refresh tokens.refreshToken with
      | some resp =>
        let newTokens : StoredTokens :=
          { tokens with
            accessToken := resp.accessToken
            idToken := resp.idToken
            expiresIn := resp.expiresIn }
        ({ st with storage := some newTokens, refreshCalls := st.refreshCalls + 1 },
          .retryRequest
            { cfg with
              retryFlag := true
              authHeader := some ("Bearer " ++ resp.accessToken) })
      | none =>
        ({ st with
            storage := none
            refreshCalls := st.refreshCalls + 1
            redirectedToLogin := true },
          .rejectRefreshError)
    | none => (st, .rejectOriginal)
  else (st, .rejectOriginal)

/-- Feed one original request through up to `n` consecutive 401 responses
(the server keeps rejecting) and count how many times the interceptor
re-issues the request. -/
def countRetries (env : RefreshEnv) : Nat → ClientState → RequestConfig → Nat
  | 0, _, _ => 0
  | n + 1, st, cfg =>
    match responseInterceptor env st 401 cfg with
    | (st', .retryRequest cfg') => 1 + countRetries env n st' cfg'
    | _ => 0

/-- Run the interceptor's error handler for each of a batch of requests that
have all received a 401, threading the client state through. -/
def processAll (env : RefreshEnv) : ClientState → List RequestConfig → ClientState
  | st, [] => st
  | st, cfg :: rest => processAll env (responseInterceptor env st 401 cfg).1 rest

/-- Like `processAll`, but also record what the interceptor did with each
request: the final client state together with the list of outcomes, in
request order. -/
def processAllTrace (env : RefreshEnv) :
    ClientState → List RequestConfig → ClientState × List InterceptorOutcome
  | st, [] => (st, [])
  | st, cfg :: rest =>
    let step := responseInterceptor env st 401 cfg
    let next := processAllTrace env step.1 rest
    (next.1, step.2 :: next.2)

/-- A decoded token declaring the symmetric algorithm HS256. -/
def dHS : DecodedToken :=
  ⟨"kid1", "HS256", [("sub", "user1")], none⟩

/-- A well-signed RS256 token whose `exp` lies in the past of `now = 1000`. -/
def dRS : DecodedToken :=
  ⟨"kid1", "RS256", [("sub", "user1")], some 500⟩

/-- An RS256 token whose issuer claim is `https://evil-one.example`. -/
def dEvil1 : DecodedToken :=
  ⟨"kid1", "RS256",
    [("iss", "https://evil-one.example"), ("aud", "aud-one"), ("sub", "user1")],
    some 9999⟩

/-- An RS256 token whose issuer claim is `https://evil-two.example`. -/
def dEvil2 : DecodedToken :=
  ⟨"kid1", "RS256",
    [("iss", "https://evil-two.example"), ("aud", "aud-two"), ("sub", "user1")],
    some 9999⟩

/-- Environment in which `tokHS` decodes to the HS256 token `dHS` and the JWKS
client knows `kid1`. -/
def envHS : JwtEnv :=
  { decode := fun s => if s = "tokHS" then some dHS else none
    keys := fun k => if k = "kid1" then some "KEY1" else none
    sigValid := fun _ _ => true
    now := 1000 }

/-- Environment with two decodable, well-signed, unexpired RS256 tokens whose
issuer and audience claims differ from each other. -/
def envNoIss : JwtEnv :=
  { decode := fun s =>
      if s = "tokA" then some dEvil1
      else if s = "tokB" then some dEvil2
      else none
    keys := fun k => if k = "kid1" then some "KEY1" else none
    sigValid := fun _ _ => true
    now := 1000 }

/-- Environment in which every signature check fails. -/
def envSig : JwtEnv :=
  { decode := fun s => if s = "tokX" then some dRS else none
    keys := fun k => if k = "kid1" then some "KEY1" else none
    sigValid := fun _ _ => false
    now := 1000 }

/-- A stored token triple (with its `expiresIn` metadata). -/
def tok0 : StoredTokens :=
  { accessToken := "oldAccess", idToken := "oldId"
    refreshToken := "refresh0", expiresIn := 100 }

/-- Client state holding `tok0`, with no refresh calls issued yet. -/
def st0 : ClientState :=
  { storage := some tok0, refreshCalls := 0, redirectedToLogin := false }

/-- Client state whose localStorage has no `tokens` entry. -/
def stEmpty : ClientState :=
  { storage := none, refreshCalls := 0, redirectedToLogin := false }

/-- A request that has not been retried yet. -/
def cfg0 : RequestConfig :=
  { retryFlag := false, authHeader := some "Bearer oldAccess" }

/-- A request that has already been retried once. -/
def cfgRetried : RequestConfig :=
  { retryFlag := true, authHeader := some "Bearer oldAccess" }

/-- The response the refresh endpoint returns in the success environment. -/
def respNew : RefreshResponse :=
  { accessToken := "newAccess", idToken := "newId", expiresIn := 3600 }

/-- Refresh environment in which every refresh call succeeds with `respNew`. -/
def envOk : RefreshEnv :=
  { refresh := fun _ => some respNew }

/-- Refresh environment in which every refresh call fails. -/
def envFail : RefreshEnv :=
  { refresh := fun _ => none }

/-- Helper: a header that splits into exactly `["Bearer", t]` passes the format
check and hands `t` to the token-verification path. -/
theorem authenticate_bearer (env : JwtEnv) (h t : String)
    (hsplit : splitChar ' ' h = ["Bearer", t]) :
    authenticate env (some h) = authenticateToken env t := by
  simp [authenticate, hsplit]

/-- C7: the middleware rejects a missing `Authorization` header with
"No authorization header provided", rejects a header that is not exactly two
space-separated parts starting with "Bearer" with the format message, and both
messages differ from each other and from those of the signature and expiry
verification failures ("Invalid token", "Token expired"). -/
theorem header_rejections_distinct (env : JwtEnv) (h t : String) (d : DecodedToken)
    (key : String)
    (hbad : (splitChar ' ' h).length ≠ 2 ∨ (splitChar ' ' h).head? ≠ some "Bearer")
    (hdec : env.decode t = some d) (hkey : env.keys d.kid = some key)
    (halg : d.alg = "RS256") :
    authenticate env none = (.reject 401 "No authorization header provided", 0)
    ∧ authenticate env (some h) =
        (.reject 401 "Authorization header format must be \"Bearer token\"", 0)
    ∧ (env.sigValid t key = false →
        authenticateToken env t = (.reject 401 "Invalid token", 1))
    ∧ (env.sigValid t key = true → isExpired env.now d.exp = true →
        authenticateToken env t = (.reject 401 "Token expired", 1))
    ∧ ("No authorization header provided" : String) ≠
        "Authorization header format must be \"Bearer token\""
    ∧ ("No authorization header provided" : String) ≠ "Invalid token"
    ∧ ("No authorization header provided" : String) ≠ "Token expired"
    ∧ ("Authorization header format must be \"Bearer token\"" : String) ≠ "Invalid token"
    ∧ ("Authorization header format must be \"Bearer token\"" : String) ≠ "Token expired" := by
  refine ⟨rfl, ?_, ?_, ?_, by decide, by decide, by decide, by decide, by decide⟩
  · simp only [authenticate]
    rw [if_pos hbad]
  · intro hsig
    simp [authenticateToken, jwtVerify, hdec, hkey, halg, hsig]
  · intro hsig hexp
    simp [authenticateToken, jwtVerify, hdec, hkey, halg, hsig, hexp]

/-- Witness for C7 at a malformed header and an invalid-signature token. -/
theorem header_rejections_distinct_witness :
    authenticate envSig (some "Token abc") =
      (.reject 401 "Authorization header format must be \"Bearer token\"", 0)
    ∧ authenticateToken envSig "tokX" = (.reject 401 "Invalid token", 1) :=
  ⟨(header_rejections_distinct envSig "Token abc" "tokX" dRS "KEY1"
      (by decide) (by decide) (by decide) rfl).2.1,
    (header_rejections_distinct envSig "Token abc" "tokX" dRS "KEY1"
      (by decide) (by decide) (by decide) rfl).2.2.1 rfl⟩

/-- C2 counterexample: `tokHS` declares HS256; the middleware rejects it, but
only after one key-resolution call — the claim asserts the key-resolution call
count is zero for such tokens. -/
theorem alg_check_after_key_lookup_cex :
    authenticate envHS (some "Bearer tokHS") = (.reject 401 "Invalid token", 1)
    ∧ dHS.alg ≠ "RS256"
    ∧ (1 : Nat) ≠ 0 := by
  refine ⟨by decide, by decide, by decide⟩

/-- C2 amended: a decodable token whose declared algorithm is not RS256 is
rejected (never accepted), but the middleware makes exactly one key-resolution
call first: `getSigningKey` runs before `jwt.verify`'s algorithm check. -/
theorem nonRS256_one_key_lookup (env : JwtEnv) (h t : String) (d : DecodedToken)
    (hsplit : splitChar ' ' h = ["Bearer", t])
    (hdec : env.decode t = some d)
    (halg : d.alg ≠ "RS256") :
    (authenticate env (some h)).2 = 1
    ∧ (authenticate env (some h)).1.isAccept = false := by
  rw [authenticate_bearer env h t hsplit]
  cases hk : env.keys d.kid with
  | none => simp [authenticateToken, hdec, hk, AuthResult.isAccept]
  | some key => simp [authenticateToken, jwtVerify, hdec, hk, halg, AuthResult.isAccept]

/-- Witness for the amended C2 at the HS256 token `tokHS`. -/
theorem nonRS256_one_key_lookup_witness :
    (authenticate envHS (some "Bearer tokHS")).2 = 1
    ∧ (authenticate envHS (some "Bearer tokHS")).1.isAccept = false :=
  nonRS256_one_key_lookup envHS "Bearer tokHS" "tokHS" dHS
    (by decide) (by decide) (by decide)

/-- C3 counterexample: two well-signed, unexpired tokens whose issuer claims
are two different values are both accepted by the middleware; since at most
one of the two issuers can equal the configured expected issuer, some token
with a mismatched issuer is accepted instead of failing verification. -/
theorem issuer_not_checked_cex :
    (authenticate envNoIss (some "Bearer tokA")).1 = .accept dEvil1.payload
    ∧ (authenticate envNoIss (some "Bearer tokB")).1 = .accept dEvil2.payload
    ∧ lookupClaim dEvil1.payload "iss" = some "https://evil-one.example"
    ∧ lookupClaim dEvil2.payload "iss" = some "https://evil-two.example"
    ∧ ("https://evil-one.example" : String) ≠ "https://evil-two.example"
    ∧ lookupClaim dEvil1.payload "aud" ≠ lookupClaim dEvil2.payload "aud" := by
  refine ⟨by decide, by decide, by decide, by decide, by decide, by decide⟩

/-- C3 amended: `jwt.verify` is called with no `issuer` or `audience` option,
so the middleware accepts any decodable RS256 token with a valid signature
that is not expired, whatever its issuer and audience claims are — the payload
is passed through to `req.user` unexamined. -/
theorem no_issuer_audience_check (env : JwtEnv) (h t : String) (d : DecodedToken)
    (key : String)
    (hsplit : splitChar ' ' h = ["Bearer", t])
    (hdec : env.decode t = some d)
    (hkey : env.keys d.kid = some key)
    (halg : d.alg = "RS256")
    (hsig : env.sigValid t key = true)
    (hexp : isExpired env.now d.exp = false) :
    authenticate env (some h) = (.accept d.payload, 1) := by
  rw [authenticate_bearer env h t hsplit]
  simp [authenticateToken, jwtVerify, hdec, hkey, halg, hsig, hexp]

/-- Witness for the amended C3 at the foreign-issuer token `tokA`. -/
theorem no_issuer_audience_check_witness :
    authenticate envNoIss (some "Bearer tokA") = (.accept dEvil1.payload, 1) :=
  no_issuer_audience_check envNoIss "Bearer tokA" "tokA" dEvil1 "KEY1"
    (by decide) (by decide) (by decide) rfl rfl (by decide)

/-- C8 counterexample: with an empty-string required role and a present
`custom:role` claim equal to it, the claim's rule answers Allow, but the
middleware rejects with 403 because the JS guard `!userRole` treats the empty
string as falsy. -/
theorem empty_role_cex :
    lookupClaim [("custom:role", "")] "custom:role" = some ""
    ∧ requireRole "" (some [("custom:role", "")]) = .reject 403 "Insufficient permissions"
    ∧ requireAnyRole [""] (some [("custom:role", "")]) =
        .reject 403 "Insufficient permissions"
    ∧ GateResult.reject 403 "Insufficient permissions" ≠ .next := by
  refine ⟨by decide, by decide, by decide, by decide⟩

/-- C8 amended: with a verified user attached, `requireRole` passes the
request on iff the `custom:role` claim is present, non-empty, and equal to the
required role, and `requireAnyRole` iff it is present, non-empty, and a member
of the acceptable set; in every other case both middlewares respond
403 "Insufficient permissions" (absent role and mismatched role alike). -/
theorem role_gate_characterization (required : String) (roles : List String)
    (u : List (String × String)) :
    (requireRole required (some u) = .next ↔
      ∃ r, lookupClaim u "custom:role" = some r ∧ r ≠ "" ∧ r = required)
    ∧ (requireAnyRole roles (some u) = .next ↔
      ∃ r, lookupClaim u "custom:role" = some r ∧ r ≠ "" ∧ roles.contains r = true)
    ∧ (requireRole required (some u) = .next ∨
        requireRole required (some u) = .reject 403 "Insufficient permissions")
    ∧ (requireAnyRole roles (some u) = .next ∨
        requireAnyRole roles (some u) = .reject 403 "Insufficient permissions") := by
  refine ⟨?_, ?_, ?_, ?_⟩
  · cases hrole : lookupClaim u "custom:role" with
    | none => simp [requireRole, hrole]
    | some r =>
      by_cases h1 : r = ""
      · simp [requireRole, hrole, h1]
      · by_cases h2 : r = required
        · simp [requireRole, hrole, h1, h2]
        · simp [requireRole, hrole, h1, h2]
  · cases hrole : lookupClaim u "custom:role" with
    | none => simp [requireAnyRole, hrole]
    | some r =>
      by_cases h1 : r = ""
      · simp [requireAnyRole, hrole, h1]
      · by_cases h2 : roles.contains r = true
        · simp [requireAnyRole, hrole, h1, h2]
        · simp [requireAnyRole, hrole, h1, h2]
  · cases hrole : lookupClaim u "custom:role" with
    | none => simp [requireRole, hrole]
    | some r =>
      by_cases h1 : r = "" ∨ r ≠ required
      · simp [requireRole, hrole, h1]
      · simp [requireRole, hrole, h1]
  · cases hrole : lookupClaim u "custom:role" with
    | none => simp [requireAnyRole, hrole]
    | some r =>
      by_cases h1 : r = "" ∨ roles.contains r = false
      · simp [requireAnyRole, hrole, h1]
        tauto
      · simp [requireAnyRole, hrole, h1]
        tauto

/-- C9: when `authenticate` has not attached a verified user, both role-check
middlewares respond 401 "Authentication required" — never a 403 and never
`next()`. -/
theorem missing_user_gets_401 (required : String) (roles : List String) :
    requireRole required none = .reject 401 "Authentication required"
    ∧ requireAnyRole roles none = .reject 401 "Authentication required"
    ∧ GateResult.reject 401 "Authentication required" ≠ .next
    ∧ (401 : Nat) ≠ 403 := by
  refine ⟨rfl, rfl, by decide, by decide⟩

/-- Helper: a request whose `_retry` flag is already set is rejected with the
original error and the client state is untouched. -/
theorem interceptor_already_retried (env : RefreshEnv) (st : ClientState)
    (status : Nat) (cfg : RequestConfig) (h : cfg.retryFlag = true) :
    responseInterceptor env st status cfg = (st, .rejectOriginal) := by
  simp [responseInterceptor, h]

/-- Helper: any config the interceptor re-issues has its `_retry` flag set. -/
theorem retried_config_flag (env : RefreshEnv) (st : ClientState) (status : Nat)
    (cfg cfg' : RequestConfig) (st' : ClientState)
    (h : responseInterceptor env st status cfg = (st', .retryRequest cfg')) :
    cfg'.retryFlag = true := by
  unfold responseInterceptor at h
  split at h
  · split at h
    · split at h
      · simp only [Prod.mk.injEq, InterceptorOutcome.retryRequest.injEq] at h
        rw [← h.2]
      · simp at h
    · simp at h
  · simp at h

/-- Helper: a request whose `_retry` flag is set is never retried again,
however many further 401 responses arrive. -/
theorem countRetries_retried (env : RefreshEnv) (n : Nat) (st : ClientState)
    (cfg : RequestConfig) (h : cfg.retryFlag = true) :
    countRetries env n st cfg = 0 := by
  cases n with
  | zero => rfl
  | succ m => simp [countRetries, interceptor_already_retried env st 401 cfg h]

/-- C4: for any sequence of consecutive 401 responses to one original call,
the interceptor re-issues the call at most once, and a call that has already
been retried is rejected immediately with the original error, with no state
change (in particular no second refresh network call). -/
theorem retry_at_most_once (env : RefreshEnv) (st : ClientState)
    (cfg : RequestConfig) (n : Nat) :
    countRetries env n st cfg ≤ 1
    ∧ (cfg.retryFlag = true →
        responseInterceptor env st 401 cfg = (st, .rejectOriginal)) := by
  refine ⟨?_, fun h => interceptor_already_retried env st 401 cfg h⟩
  cases n with
  | zero => simp [countRetries]
  | succ m =>
    simp only [countRetries]
    rcases hr : responseInterceptor env st 401 cfg with ⟨st', out⟩
    cases out with
    | retryRequest cfg' =>
      have hflag : cfg'.retryFlag = true :=
        retried_config_flag env st 401 cfg cfg' st' hr
      simp [countRetries_retried env m st' cfg' hflag]
    | rejectOriginal => simp
    | rejectRefreshError => simp

/-- Witness for C4: an already-retried request is rejected immediately, and a
fresh request facing five consecutive 401s is retried at most once. -/
theorem retry_at_most_once_witness :
    countRetries envOk 5 st0 cfg0 ≤ 1
    ∧ responseInterceptor envOk st0 401 cfgRetried = (st0, .rejectOriginal) :=
  ⟨(retry_at_most_once envOk st0 cfg0 5).1,
    (retry_at_most_once envOk st0 cfgRetried 5).2 rfl⟩

/-- C10: a 401 received while localStorage holds no `tokens` entry is rejected
with the original error; no refresh call is issued and the client state
(including the absent session) is unchanged. -/
theorem no_tokens_no_refresh (env : RefreshEnv) (st : ClientState)
    (cfg : RequestConfig) (h : st.storage = none) :
    responseInterceptor env st 401 cfg = (st, .rejectOriginal) := by
  by_cases hr : cfg.retryFlag = false
  · simp [responseInterceptor, h, hr]
  · simp [responseInterceptor, hr]

/-- Witness for C10 at an empty session store. -/
theorem no_tokens_no_refresh_witness :
    responseInterceptor envOk stEmpty 401 cfg0 = (stEmpty, .rejectOriginal) :=
  no_tokens_no_refresh envOk stEmpty cfg0 rfl

/-- C5 counterexample: when the refresh call fails, the interceptor clears the
session and redirects, but the promise is rejected with the refresh error, not
with the original authorization error. -/
theorem refresh_failure_original_error_cex :
    responseInterceptor envFail st0 401 cfg0 =
      (⟨none, 1, true⟩, .rejectRefreshError)
    ∧ InterceptorOutcome.rejectRefreshError ≠ .rejectOriginal := by
  refine ⟨by decide, by decide⟩

/-- C5 amended: when the refresh attempt for a not-yet-retried 401 fails, the
`tokens` entry is removed from storage, the client redirects to `/login`, and
the call is rejected with the refresh error (not the original 401 error). -/
theorem refresh_failure_clears_session (env : RefreshEnv) (st : ClientState)
    (t : StoredTokens) (cfg : RequestConfig)
    (hretry : cfg.retryFlag = false) (hst : st.storage = some t)
    (hfail : env.refresh t.refreshToken = none) :
    responseInterceptor env st 401 cfg =
      ({ st with
          storage := none
          refreshCalls := st.refreshCalls + 1
          redirectedToLogin := true },
        .rejectRefreshError) := by
  simp [responseInterceptor, hretry, hst, hfail]

/-- Witness for the amended C5 in the failing-refresh environment. -/
theorem refresh_failure_clears_session_witness :
    responseInterceptor envFail st0 401 cfg0 =
      ({ st0 with
          storage := none
          refreshCalls := st0.refreshCalls + 1
          redirectedToLogin := true },
        .rejectRefreshError) :=
  refresh_failure_clears_session envFail st0 tok0 cfg0 rfl rfl rfl

/-- C6 counterexample: a successful refresh replaces the stored `expiresIn`
(100 becomes 3600) in addition to the access and ID tokens, so persisted
session state other than the access/ID tokens is touched. -/
theorem refresh_success_expiresIn_cex :
    tok0.expiresIn = 100
    ∧ (responseInterceptor envOk st0 401 cfg0).1.storage =
        some ⟨"newAccess", "newId", "refresh0", 3600⟩
    ∧ (3600 : Int) ≠ 100 := by
  refine ⟨by decide, by decide, by decide⟩

/-- C6 amended: a successful refresh writes back the spread
`{ ...tokens, accessToken, idToken, expiresIn }`: the access and ID tokens and
the `expiresIn` field take the newly issued values, while the stored refresh
token is preserved unchanged. -/
theorem refresh_success_updates_tokens (env : RefreshEnv) (st : ClientState)
    (t : StoredTokens) (cfg : RequestConfig) (resp : RefreshResponse)
    (hretry : cfg.retryFlag = false) (hst : st.storage = some t)
    (hresp : env.refresh t.refreshToken = some resp) :
    (responseInterceptor env st 401 cfg).1.storage =
      some { t with
              accessToken := resp.accessToken
              idToken := resp.idToken
              expiresIn := resp.expiresIn }
    ∧ (responseInterceptor env st 401 cfg).1.storage.map StoredTokens.refreshToken =
        some t.refreshToken := by
  simp [responseInterceptor, hretry, hst, hresp]

/-- Witness for the amended C6 in the succeeding-refresh environment. -/
theorem refresh_success_updates_tokens_witness :
    (responseInterceptor envOk st0 401 cfg0).1.storage =
      some { tok0 with
              accessToken := respNew.accessToken
              idToken := respNew.idToken
              expiresIn := respNew.expiresIn }
    ∧ (responseInterceptor envOk st0 401 cfg0).1.storage.map StoredTokens.refreshToken =
        some tok0.refreshToken :=
  refresh_success_updates_tokens envOk st0 tok0 cfg0 respNew rfl rfl rfl

/-- C1 counterexample: two requests that have both received a 401 while the
store holds tokens and no refresh call has yet been issued each trigger their
own refresh network call — two calls, where the claim requires exactly one. -/
theorem single_refresh_call_cex :
    st0.refreshCalls = 0
    ∧ (processAll envOk st0 [cfg0, cfg0]).refreshCalls = 2
    ∧ (2 : Nat) ≠ 1 := by
  refine ⟨by decide, by decide, by decide⟩

/-- C1 amended: the interceptor keeps no shared refresh-in-flight state, so
each 401-failing, not-yet-retried request issues its own refresh call: when
the refresh endpoint answers the stored refresh token, N such requests issue
N refresh calls rather than one shared call, and each of the N requests is
re-issued with its `_retry` flag set and an `Authorization` header carrying
the access token of the response to its own refresh call — the stored refresh
token is preserved across the storage updates, so every one of these calls
presents the same refresh token and every retried request carries the same
newly issued access token, never the old one. -/
theorem refresh_call_per_failing_request (env : RefreshEnv)
    (resp : RefreshResponse) :
    ∀ (cfgs : List RequestConfig) (st : ClientState) (t : StoredTokens),
      st.storage = some t →
      env.refresh t.refreshToken = some resp →
      (∀ cfg ∈ cfgs, cfg.retryFlag = false) →
      (processAllTrace env st cfgs).1.refreshCalls = st.refreshCalls + cfgs.length
      ∧ (processAllTrace env st cfgs).2 = cfgs.map (fun cfg =>
          .retryRequest
            { cfg with
              retryFlag := true
              authHeader := some ("Bearer " ++ resp.accessToken) }) := by
  intro cfgs
  induction cfgs with
  | nil =>
    intro st t hst hresp hall
    simp [processAllTrace]
  | cons cfg rest ih =>
    intro st t hst hresp hall
    have hcfg : cfg.retryFlag = false := hall cfg (List.mem_cons_self cfg rest)
    have hstep : responseInterceptor env st 401 cfg =
        ({ st with
            storage := some { t with
              accessToken := resp.accessToken
              idToken := resp.idToken
              expiresIn := resp.expiresIn }
            refreshCalls := st.refreshCalls + 1 },
          .retryRequest
            { cfg with
              retryFlag := true
              authHeader := some ("Bearer " ++ resp.accessToken) }) := by
      simp [responseInterceptor, hcfg, hst, hresp]
    have ihres := ih
      { st with
          storage := some { t with
            accessToken := resp.accessToken
            idToken := resp.idToken
            expiresIn := resp.expiresIn }
          refreshCalls := st.refreshCalls + 1 }
      { t with
          accessToken := resp.accessToken
          idToken := resp.idToken
          expiresIn := resp.expiresIn }
      rfl hresp (fun c hc => hall c (List.mem_cons_of_mem cfg hc))
    constructor
    · simp only [processAllTrace, hstep]
      rw [ihres.1]
      simp [List.length_cons]
      omega
    · simp only [processAllTrace, hstep, List.map_cons]
      rw [ihres.2]

/-- Witness for the amended C1: three concurrently failing fresh requests
issue three refresh calls, and each is retried with its `_retry` flag set and
the newly issued access token in its `Authorization` header. -/
theorem refresh_call_per_failing_request_witness :
    (processAllTrace envOk st0 [cfg0, cfg0, cfg0]).1.refreshCalls =
      st0.refreshCalls + [cfg0, cfg0, cfg0].length
    ∧ (processAllTrace envOk st0 [cfg0, cfg0, cfg0]).2 =
        [cfg0, cfg0, cfg0].map (fun cfg =>
          .retryRequest
            { cfg with
              retryFlag := true
              authHeader := some ("Bearer " ++ respNew.accessToken) }) :=
  refresh_call_per_failing_request envOk respNew [cfg0, cfg0, cfg0] st0 tok0
    rfl rfl
    (fun c hc => by
      simp only [List.mem_cons, List.not_mem_nil, or_false] at hc
      rcases hc with h | h | h <;> (rw [h]; rfl))
